import Mathlib

/-!
Verification of the Mini-Agent repository core against its specification.

The Python sources are shallowly embedded: pure functions become Lean
functions, the async retry loop becomes explicit recursion producing a
trace (result, number of invocations, sleeps performed, observer calls),
floating-point seconds are modelled as rationals, and exceptions become
explicit error values.  Components of the repository whose implementation
files are not available (the MCP loader, the agent loop, the tool base
class) are modelled from the specification text and marked as such.
-/

namespace MiniAgent

/-! ## Retry module (mini_agent/retry.py) -/

/-- `RetryConfig` from mini_agent/retry.py.  The error type of the wrapped
operation is a parameter `E`; `retryable_exceptions` becomes a Boolean
predicate on errors (Python matches an exception against a tuple of types).
Floating-point delays are modelled as rationals. -/
structure RetryConfig (E : Type) where
  enabled : Bool := true
  max_retries : ℕ := 3
  initial_delay : ℚ := 1
  max_delay : ℚ := 60
  exponential_base : ℚ := 2
  retryable_exceptions : E → Bool := fun _ => true

/-- `RetryConfig.calculate_delay`: `delay = initial_delay * exponential_base**attempt`
then `min(delay, max_delay)`. -/
def RetryConfig.calculate_delay {E : Type} (c : RetryConfig E) (attempt : ℕ) : ℚ :=
  let delay := c.initial_delay * c.exponential_base ^ attempt
  min delay c.max_delay

/-- Outcome of a run of the `async_retry` wrapper.
`exhausted last attempts` is `RetryExhaustedError(last_exception, attempts)`;
`raised e` is an exception propagating uncaught (it did not match
`config.retryable_exceptions`). -/
inductive RunOutcome (E A : Type) where
  | success (value : A)
  | exhausted (last_exception : E) (attempts : ℕ)
  | raised (e : E)
  deriving Repr, DecidableEq

/-- Observable trace of one run of the wrapper produced by `async_retry`:
the outcome, how many times the wrapped operation was invoked, the delays
passed to `asyncio.sleep`, and the `(exception, attempt_number)` pairs
passed to the `on_retry` callback, in order. -/
structure RunTrace (E A : Type) where
  outcome : RunOutcome E A
  calls : ℕ
  sleeps : List ℚ
  on_retry_events : List (E × ℕ)
  deriving Repr, DecidableEq

/-- The body of the `for attempt in range(config.max_retries + 1)` loop in
`async_retry`.  `op k` is the result of the `k`-th invocation of the wrapped
operation (`Except.ok` = normal return, `Except.error` = raised exception).
`attempt` is the current loop index and `remaining = max_retries - attempt`
counts the loop iterations still to come; the loop raises
`RetryExhaustedError(e, attempt + 1)` when `attempt >= config.max_retries`,
i.e. when `remaining = 0`.  Before a retry it computes the delay, invokes
`on_retry(e, attempt + 1)` and sleeps. -/
def retryLoop {E A : Type} (cfg : RetryConfig E) (op : ℕ → Except E A) :
    (attempt remaining : ℕ) → RunTrace E A
  | attempt, remaining =>
    match op attempt with
    | Except.ok a => ⟨RunOutcome.success a, 1, [], []⟩
    | Except.error e =>
      if cfg.retryable_exceptions e then
        match remaining with
        | 0 => ⟨RunOutcome.exhausted e (attempt + 1), 1, [], []⟩
        | r + 1 =>
          let delay := cfg.calculate_delay attempt
          let rest := retryLoop cfg op (attempt + 1) r
          ⟨rest.outcome, rest.calls + 1, delay :: rest.sleeps,
            (e, attempt + 1) :: rest.on_retry_events⟩
      else ⟨RunOutcome.raised e, 1, [], []⟩

/-- A full run of the wrapper built by `async_retry(config)` around an
operation whose `k`-th invocation yields `op k`: the Python loop starts at
`attempt = 0` with `max_retries` iterations still to come after it.
Note that the wrapper reads `cfg.max_retries` and `cfg.retryable_exceptions`
but never reads `cfg.enabled`, exactly as in the source. -/
def async_retry_run {E A : Type} (cfg : RetryConfig E) (op : ℕ → Except E A) :
    RunTrace E A :=
  retryLoop cfg op 0 cfg.max_retries

/-- Helper for C2: if every invocation from index `attempt` on fails with a
retryable error, the loop performs `remaining + 1` further invocations and
exhausts, reporting the error of the final invocation and attempt count
`attempt + remaining + 1`. -/
theorem retryLoop_all_fail {E A : Type} (cfg : RetryConfig E)
    (op : ℕ → Except E A) (errs : ℕ → E)
    (hop : ∀ k, op k = Except.error (errs k))
    (hret : ∀ k, cfg.retryable_exceptions (errs k) = true) :
    ∀ remaining attempt,
      (retryLoop cfg op attempt remaining).outcome
          = RunOutcome.exhausted (errs (attempt + remaining)) (attempt + remaining + 1)
        ∧ (retryLoop cfg op attempt remaining).calls = remaining + 1 := by
  intro remaining
  induction remaining with
  | zero =>
    intro attempt
    rw [retryLoop, hop attempt]
    simp [hret attempt]
  | succ r ih =>
    intro attempt
    have h := ih (attempt + 1)
    have e1 : attempt + 1 + r = attempt + (r + 1) := by omega
    rw [e1] at h
    rw [retryLoop, hop attempt]
    simp only [hret attempt, if_true]
    exact ⟨h.1, by rw [h.2]⟩

end MiniAgent

namespace MiniAgent

/-- C1: `calculate_delay(attempt)` equals
`min(initial_delay * exponential_base ** attempt, max_delay)` for every
configuration and every attempt number. -/
theorem calculate_delay_spec {E : Type} (c : RetryConfig E) (attempt : ℕ) :
    c.calculate_delay attempt
      = min (c.initial_delay * c.exponential_base ^ attempt) c.max_delay := rfl

/-- C2: when every attempt fails with a retryable error, the wrapper invokes
the operation exactly `max_retries + 1` times and raises
`RetryExhaustedError` whose `attempts` field is `max_retries + 1` and whose
`last_exception` is the error raised by the final attempt. -/
theorem async_retry_exhausts {E A : Type} (cfg : RetryConfig E)
    (op : ℕ → Except E A) (errs : ℕ → E)
    (hop : ∀ k, op k = Except.error (errs k))
    (hret : ∀ k, cfg.retryable_exceptions (errs k) = true) :
    (async_retry_run cfg op).outcome
        = RunOutcome.exhausted (errs cfg.max_retries) (cfg.max_retries + 1)
      ∧ (async_retry_run cfg op).calls = cfg.max_retries + 1 := by
  have h := retryLoop_all_fail cfg op errs hop hret cfg.max_retries 0
  simpa [async_retry_run] using h

/-- Witness for C2 at `max_retries = 3`: exactly 4 invocations, attempt
count 4, last exception that of the 4th attempt. -/
theorem async_retry_exhausts_witness :
    (async_retry_run (E := ℕ) (A := Unit) { max_retries := 3 }
        (fun k => Except.error k)).outcome = RunOutcome.exhausted 3 4
      ∧ (async_retry_run (E := ℕ) (A := Unit) { max_retries := 3 }
          (fun k => Except.error k)).calls = 4 :=
  async_retry_exhausts { max_retries := 3 } (fun k => Except.error k)
    (fun k => k) (fun _ => rfl) (fun _ => rfl)

/-- C3 (code bug): `async_retry` never reads `config.enabled`.  With
`enabled = False` and `max_retries = 3`, an operation failing with a
retryable error on every attempt is still invoked 4 times and the wrapper
raises `RetryExhaustedError` with attempt count 4, instead of invoking it
once and letting the error propagate as the claim states. -/
theorem async_retry_ignores_enabled :
    (async_retry_run (E := ℕ) (A := Unit)
        { enabled := false, max_retries := 3 }
        (fun _ => Except.error 7)).calls = 4
      ∧ (async_retry_run (E := ℕ) (A := Unit)
          { enabled := false, max_retries := 3 }
          (fun _ => Except.error 7)).outcome = RunOutcome.exhausted 7 4 := by
  constructor <;> rfl

/-- C4: an error that does not match `retryable_exceptions` propagates out
of the attempt that raised it: one invocation, no sleep, no `on_retry`
call, no retry consumed. -/
theorem async_retry_nonretryable {E A : Type} (cfg : RetryConfig E)
    (op : ℕ → Except E A) (e : E)
    (hop : op 0 = Except.error e)
    (hret : cfg.retryable_exceptions e = false) :
    async_retry_run cfg op = ⟨RunOutcome.raised e, 1, [], []⟩ := by
  unfold async_retry_run retryLoop
  rw [hop]
  simp [hret]

/-- Witness for C4: a non-retryable error at attempt 0 propagates at once. -/
theorem async_retry_nonretryable_witness :
    async_retry_run (E := ℕ) (A := Unit)
        { retryable_exceptions := fun e => decide (e < 5) }
        (fun _ => Except.error 9)
      = ⟨RunOutcome.raised 9, 1, [], []⟩ :=
  async_retry_nonretryable
    { retryable_exceptions := fun e => decide (e < 5) }
    (fun _ => Except.error 9) 9 rfl (by decide)

end MiniAgent

namespace MiniAgent

/-! ## MCP loader (mini_agent/tools/mcp_loader.py)

The loader's implementation file is not among the available sources; only
its tests are.  The definitions below are therefore modelled from the
specification (transport-type inference, validation, timeout resolution,
and the registry load loop) and checked against the behaviour the tests
pin down. -/

/-- Modelled from the spec: one raw provider config entry of mcp.json
(mini_agent/tools/mcp_loader.py is not among the available sources).
Fields: `command`, `args`, `env`, `url`, `headers`, `type`, `disabled`,
and optional timeout overrides in floating-point seconds (rationals
here). -/
structure MCPRawConfig where
  command : Option String := none
  args : List String := []
  env : List (String × String) := []
  url : Option String := none
  headers : List (String × String) := []
  type : Option String := none
  disabled : Bool := false
  connect_timeout : Option ℚ := none
  execute_timeout : Option ℚ := none
  sse_read_timeout : Option ℚ := none
  deriving Repr, DecidableEq

/-- Python `str.lower()` on the ASCII transport tags, mapped over the
character list (kernel-reducible, unlike `String.toLower`). -/
def lowercase (s : String) : String :=
  String.mk (s.data.map Char.toLower)

/-- Modelled from the spec: `_determine_connection_type` of
mini_agent/tools/mcp_loader.py.  Rules, in order: an explicit `type` that
case-folds to one of stdio/sse/http/streamable_http is used verbatim
(case-folded); else a present `command` (and no `url`) defaults to stdio;
else a present `url` defaults to streamable_http; else stdio. -/
def _determine_connection_type (config : MCPRawConfig) : String :=
  let explicit : Option String :=
    match config.type with
    | some t =>
      let tl := lowercase t
      if ["stdio", "sse", "http", "streamable_http"].contains tl then some tl
      else none
    | none => none
  match explicit with
  | some t => t
  | none =>
    if config.command.isSome && config.url.isNone then "stdio"
    else if config.url.isSome then "streamable_http"
    else "stdio"

/-- Modelled from the spec: validation of one config entry — stdio requires
a non-empty `command`, url-based kinds require a non-empty `url`. -/
def validate_entry (config : MCPRawConfig) : Bool :=
  if _determine_connection_type config = "stdio" then
    match config.command with
    | some c => !c.isEmpty
    | none => false
  else
    match config.url with
    | some u => !u.isEmpty
    | none => false

/-- A remotely-discovered tool surfaced by the loader (name and
description only; execution is proxied through its connection). -/
structure MCPTool where
  name : String
  description : String := ""
  deriving Repr, DecidableEq

/-- An entry is skipped by the loader when it is marked disabled or fails
validation. -/
def entry_skipped (p : String × MCPRawConfig) : Bool :=
  p.2.disabled || !validate_entry p.2

/-- Modelled from the spec: `load_mcp_tools_async` of
mini_agent/tools/mcp_loader.py.  For each entry of the config mapping:
skip if disabled; validate and skip on failure; otherwise attempt to
connect.  `connect name config` is the external connection attempt:
`none` means connect failed (skipped), `some ts` means the connected
server listed tools `ts`.  One bad entry never aborts the rest, and the
function is total — it never raises. -/
def load_mcp_tools (connect : String → MCPRawConfig → Option (List MCPTool)) :
    List (String × MCPRawConfig) → List MCPTool
  | [] => []
  | (name, config) :: rest =>
    let tools :=
      if config.disabled then []
      else if !validate_entry config then []
      else
        match connect name config with
        | none => []
        | some ts => ts
    tools ++ load_mcp_tools connect rest

/-- Modelled from the spec: `MCPTimeoutConfig` of
mini_agent/tools/mcp_loader.py, the process-wide defaults
(connect 10.0s, execute 60.0s, streaming read 120.0s). -/
structure MCPTimeoutConfig where
  connect_timeout : ℚ := 10
  execute_timeout : ℚ := 60
  sse_read_timeout : ℚ := 120
  deriving Repr, DecidableEq

/-- Modelled from the spec: `MCPServerConnection` of
mini_agent/tools/mcp_loader.py — one connection with its transport fields
and optional per-connection timeout overrides. -/
structure MCPServerConnection where
  name : String
  connection_type : String := "stdio"
  command : Option String := none
  args : List String := []
  env : List (String × String) := []
  url : Option String := none
  headers : List (String × String) := []
  connect_timeout : Option ℚ := none
  execute_timeout : Option ℚ := none
  sse_read_timeout : Option ℚ := none
  deriving Repr, DecidableEq

/-- Modelled from the spec: `MCPServerConnection._get_connect_timeout` —
the per-connection override if set, else the process-wide default read at
the moment of resolution (passed here as `g`). -/
def MCPServerConnection._get_connect_timeout (conn : MCPServerConnection)
    (g : MCPTimeoutConfig) : ℚ :=
  conn.connect_timeout.getD g.connect_timeout

/-- Modelled from the spec: `MCPServerConnection._get_execute_timeout`. -/
def MCPServerConnection._get_execute_timeout (conn : MCPServerConnection)
    (g : MCPTimeoutConfig) : ℚ :=
  conn.execute_timeout.getD g.execute_timeout

/-- Modelled from the spec: `MCPServerConnection._get_sse_read_timeout`. -/
def MCPServerConnection._get_sse_read_timeout (conn : MCPServerConnection)
    (g : MCPTimeoutConfig) : ℚ :=
  conn.sse_read_timeout.getD g.sse_read_timeout

end MiniAgent

namespace MiniAgent

/-- C5: the transport-type inference table — command-only is stdio,
explicit stdio is stdio, url-only is streamable_http, explicit sse is sse,
the type field is case-insensitive, an unknown type with a url falls back
to streamable_http, and the empty config is stdio. -/
theorem determine_connection_type_table :
    _determine_connection_type { command := some "npx" } = "stdio"
      ∧ _determine_connection_type { command := some "npx", type := some "stdio" } = "stdio"
      ∧ _determine_connection_type { url := some "https://x" } = "streamable_http"
      ∧ _determine_connection_type { url := some "https://x", type := some "sse" } = "sse"
      ∧ _determine_connection_type { url := some "https://x", type := some "SSE" } = "sse"
      ∧ _determine_connection_type { url := some "https://x", type := some "unknown" }
          = "streamable_http"
      ∧ _determine_connection_type {} = "stdio" := by
  refine ⟨?_, ?_, ?_, ?_, ?_, ?_, ?_⟩ <;> decide

/-- C6: the loader skips every disabled or invalid entry: a config whose
entries all fail validation or are disabled loads to the empty tool list
(without raising — the loader is a total function), and one skipped entry
never aborts loading of the remaining entries. -/
theorem load_skips_invalid_entries
    (connect : String → MCPRawConfig → Option (List MCPTool)) :
    (∀ entries : List (String × MCPRawConfig),
        (∀ p ∈ entries, entry_skipped p = true) →
        load_mcp_tools connect entries = [])
      ∧ (∀ (name : String) (config : MCPRawConfig)
            (rest : List (String × MCPRawConfig)),
          entry_skipped (name, config) = true →
          load_mcp_tools connect ((name, config) :: rest)
            = load_mcp_tools connect rest) := by
  have hstep : ∀ (name : String) (config : MCPRawConfig)
      (rest : List (String × MCPRawConfig)),
      entry_skipped (name, config) = true →
      load_mcp_tools connect ((name, config) :: rest)
        = load_mcp_tools connect rest := by
    intro name config rest hskip
    simp only [entry_skipped, Bool.or_eq_true, Bool.not_eq_true'] at hskip
    rcases hskip with hdis | hval
    · simp [load_mcp_tools, hdis]
    · simp [load_mcp_tools, hval]
  refine ⟨?_, hstep⟩
  intro entries
  induction entries with
  | nil => intro _; rfl
  | cons p rest ih =>
    intro hall
    obtain ⟨name, config⟩ := p
    rw [hstep name config rest (hall _ (List.mem_cons_self _ _))]
    exact ih fun q hq => hall q (List.mem_cons_of_mem _ hq)

/-- Witness for C6: a config of one sse entry missing its url, one stdio
entry missing its command, and one disabled entry loads to no tools. -/
theorem load_skips_invalid_entries_witness :
    load_mcp_tools (fun _ _ => some [{ name := "t" }])
        [("broken-sse", { type := some "sse" }),
         ("broken-stdio", { type := some "stdio" }),
         ("off", { command := some "npx", disabled := true })]
      = [] :=
  (load_skips_invalid_entries (fun _ _ => some [{ name := "t" }])).1 _
    (by decide)

/-- C7: each of the three effective timeouts resolves to the connection's
own override whenever one is set, and to the corresponding field of the
process-wide default configuration (as read at the moment of resolution)
otherwise. -/
theorem timeout_resolution (conn : MCPServerConnection) (g : MCPTimeoutConfig) :
    (∀ t, conn.connect_timeout = some t → conn._get_connect_timeout g = t)
      ∧ (conn.connect_timeout = none →
          conn._get_connect_timeout g = g.connect_timeout)
      ∧ (∀ t, conn.execute_timeout = some t → conn._get_execute_timeout g = t)
      ∧ (conn.execute_timeout = none →
          conn._get_execute_timeout g = g.execute_timeout)
      ∧ (∀ t, conn.sse_read_timeout = some t → conn._get_sse_read_timeout g = t)
      ∧ (conn.sse_read_timeout = none →
          conn._get_sse_read_timeout g = g.sse_read_timeout) := by
  refine ⟨?_, ?_, ?_, ?_, ?_, ?_⟩
  · intro t h
    simp [MCPServerConnection._get_connect_timeout, h]
  · intro h
    simp [MCPServerConnection._get_connect_timeout, h]
  · intro t h
    simp [MCPServerConnection._get_execute_timeout, h]
  · intro h
    simp [MCPServerConnection._get_execute_timeout, h]
  · intro t h
    simp [MCPServerConnection._get_sse_read_timeout, h]
  · intro h
    simp [MCPServerConnection._get_sse_read_timeout, h]

/-- Witness for C7: a 20-second connect override wins over the default
config, and without an override the default 10 seconds applies; likewise a
180-second execute override wins. -/
theorem timeout_resolution_witness :
    MCPServerConnection._get_connect_timeout
        { name := "test", connection_type := "sse", url := some "https://example.com",
          connect_timeout := some 20 } {} = 20
      ∧ MCPServerConnection._get_connect_timeout
          { name := "test", connection_type := "sse",
            url := some "https://example.com" } {} = 10
      ∧ MCPServerConnection._get_execute_timeout
          { name := "test", connection_type := "sse",
            url := some "https://example.com",
            execute_timeout := some 180 } {} = 180 :=
  ⟨(timeout_resolution _ {}).1 20 rfl,
   (timeout_resolution
      { name := "test", connection_type := "sse",
        url := some "https://example.com" } {}).2.1 rfl,
   (timeout_resolution _ {}).2.2.1 180 rfl⟩

end MiniAgent

namespace MiniAgent

/-! ## Schema types (mini_agent/schema/schema.py) and the tool base class -/

/-- A JSON value, for tool parameter schemas and tool-call arguments. -/
inductive JsonValue where
  | str (s : String)
  | num (q : ℚ)
  | bool (b : Bool)
  | null
  | arr (items : List JsonValue)
  | obj (fields : List (String × JsonValue))

/-- `FunctionCall` from mini_agent/schema/schema.py. -/
structure FunctionCall where
  name : String
  arguments : List (String × JsonValue) := []

/-- `ToolCall` from mini_agent/schema/schema.py. -/
structure ToolCall where
  id : String
  type : String := "function"
  function : FunctionCall

/-- `Message` from mini_agent/schema/schema.py (content taken as text). -/
structure Message where
  role : String
  content : String
  thinking : Option String := none
  tool_calls : Option (List ToolCall) := none
  tool_call_id : Option String := none
  name : Option String := none

/-- `TokenUsage` from mini_agent/schema/schema.py. -/
structure TokenUsage where
  prompt_tokens : ℕ := 0
  completion_tokens : ℕ := 0
  total_tokens : ℕ := 0

/-- `LLMResponse` from mini_agent/schema/schema.py. -/
structure LLMResponse where
  content : String
  thinking : Option String := none
  tool_calls : Option (List ToolCall) := none
  finish_reason : String
  usage : Option TokenUsage := none

/-- Modelled from the spec: `ToolResult` of mini_agent/tools/base.py (not
among the available sources): `{success, content|error}`. -/
structure ToolResult where
  success : Bool
  content : String := ""
  error : Option String := none

/-- Modelled from the spec: the `Tool` base class of
mini_agent/tools/base.py — a name, a description and a JSON-schema
parameter object. -/
structure Tool where
  name : String
  description : String
  parameters : JsonValue

/-- Shape A of the tool schema export:
`{name, description, input_schema}`. -/
structure AnthropicToolSchema where
  name : String
  description : String
  input_schema : JsonValue

/-- The `function` object inside shape B. -/
structure OpenAIFunctionSchema where
  name : String
  description : String
  parameters : JsonValue

/-- Shape B of the tool schema export:
`{type: "function", function: {name, description, parameters}}`. -/
structure OpenAIToolSchema where
  type : String
  function : OpenAIFunctionSchema

/-- Modelled from the spec: `Tool.to_schema` of mini_agent/tools/base.py,
producing shape A from the tool's own fields. -/
def Tool.to_schema (t : Tool) : AnthropicToolSchema :=
  { name := t.name, description := t.description, input_schema := t.parameters }

/-- Modelled from the spec: `Tool.to_openai_schema` of
mini_agent/tools/base.py, producing shape B from the tool's own fields. -/
def Tool.to_openai_schema (t : Tool) : OpenAIToolSchema :=
  { type := "function",
    function :=
      { name := t.name, description := t.description, parameters := t.parameters } }

end MiniAgent

namespace MiniAgent

/-- C8: for every tool the two exported schema shapes agree exactly —
shape B is tagged `type = "function"`, and name, description and the
parameter JSON-schema object are identical between the two shapes
(`input_schema` equals `function.parameters`). -/
theorem tool_schema_consistency (t : Tool) :
    t.to_openai_schema.type = "function"
      ∧ t.to_schema.name = t.to_openai_schema.function.name
      ∧ t.to_schema.description = t.to_openai_schema.function.description
      ∧ t.to_schema.input_schema = t.to_openai_schema.function.parameters :=
  ⟨rfl, rfl, rfl, rfl⟩

end MiniAgent

namespace MiniAgent

/-! ## Agent step-loop (mini_agent/agent.py)

The agent's implementation file is not among the available sources; the
loop below is modelled from the specification's step-loop state machine. -/

/-- Terminal status of an agent run: completed, cancelled at a step
boundary, or stopped at the step limit. -/
inductive AgentStatus where
  | done
  | cancelled
  | stepLimitExceeded
  deriving Repr, DecidableEq

/-- Result of an agent run: terminal status, number of steps taken, the
returned content, and the final conversation history in order. -/
structure AgentRunResult where
  status : AgentStatus
  steps : ℕ
  finalContent : String
  history : List Message

/-- The content of the first assistant-role message in a list (used on the
reversed history, where it is the most recent assistant message). -/
def firstAssistantContent : List Message → Option String
  | [] => none
  | m :: rest =>
    if m.role = "assistant" then some m.content else firstAssistantContent rest

/-- The content of the last assistant-role message of a history. -/
def lastAssistantContent (history : List Message) : Option String :=
  firstAssistantContent history.reverse

/-- The tool-role message fed back for one tool call: the dispatched
result's content (or error text), tagged with the originating
tool-call id. -/
def toolResultMessage (dispatch : ToolCall → ToolResult) (tc : ToolCall) :
    Message :=
  let r := dispatch tc
  { role := "tool",
    content := if r.success then r.content else (r.error.getD ""),
    tool_call_id := some tc.id,
    name := some tc.function.name }

/-- The assistant message appended for one model response (content,
thinking and tool calls). -/
def assistantMessage (resp : LLMResponse) : Message :=
  { role := "assistant", content := resp.content,
    thinking := resp.thinking, tool_calls := resp.tool_calls }

/-- Modelled from the spec: the agent step-loop of mini_agent/agent.py.
`model` is `ModelClient.generate` on the current history; `dispatch` runs
one tool call to a `ToolResult` (unknown tools and tool errors are already
converted to failed results inside it, so it is total).  The history is
accumulated in reverse; `remaining = max_steps - steps`.  Each step calls
the model, appends the assistant message, stops with `done` if the
response carries no tool calls, otherwise appends one tool message per
tool call in order and repeats; when the step counter reaches `max_steps`
the run stops with `stepLimitExceeded` and the last assistant content as
the partial result. -/
def agentLoop (model : List Message → LLMResponse)
    (dispatch : ToolCall → ToolResult) :
    (remaining : ℕ) → (revHistory : List Message) → (steps : ℕ) → AgentRunResult
  | 0, revHistory, steps =>
    { status := AgentStatus.stepLimitExceeded, steps := steps,
      finalContent := (firstAssistantContent revHistory).getD "",
      history := revHistory.reverse }
  | remaining + 1, revHistory, steps =>
    let resp := model revHistory.reverse
    let hist1 := assistantMessage resp :: revHistory
    match resp.tool_calls with
    | none =>
      { status := AgentStatus.done, steps := steps + 1,
        finalContent := resp.content, history := hist1.reverse }
    | some [] =>
      { status := AgentStatus.done, steps := steps + 1,
        finalContent := resp.content, history := hist1.reverse }
    | some (tc :: tcs) =>
      let toolMsgs := (tc :: tcs).map (toolResultMessage dispatch)
      agentLoop model dispatch remaining (toolMsgs.reverse ++ hist1) (steps + 1)

/-- Modelled from the spec: `Agent.run` — the cancellation flag is checked
at the step boundary before any model call; otherwise the loop runs with
the full `max_steps` budget over the initial history. -/
def Agent.run (max_steps : ℕ) (cancelFlag : Bool)
    (model : List Message → LLMResponse) (dispatch : ToolCall → ToolResult)
    (initial : List Message) : AgentRunResult :=
  if cancelFlag then
    { status := AgentStatus.cancelled, steps := 0, finalContent := "",
      history := initial }
  else
    agentLoop model dispatch max_steps initial.reverse 0

/-- Helper for C9: when the model always requests at least one tool call,
the loop consumes its whole budget, taking exactly `remaining` further
steps, ending `stepLimitExceeded`, and returning the content of the last
assistant message of the final history. -/
theorem agentLoop_all_tool_calls (model : List Message → LLMResponse)
    (dispatch : ToolCall → ToolResult)
    (hmodel : ∀ h, ∃ tc tcs, (model h).tool_calls = some (tc :: tcs)) :
    ∀ remaining revHistory steps,
      (agentLoop model dispatch remaining revHistory steps).status
          = AgentStatus.stepLimitExceeded
        ∧ (agentLoop model dispatch remaining revHistory steps).steps
            = steps + remaining
        ∧ (agentLoop model dispatch remaining revHistory steps).finalContent
            = (lastAssistantContent
                (agentLoop model dispatch remaining revHistory steps).history).getD "" := by
  intro remaining
  induction remaining with
  | zero =>
    intro revHistory steps
    refine ⟨rfl, rfl, ?_⟩
    simp [agentLoop, lastAssistantContent]
  | succ r ih =>
    intro revHistory steps
    obtain ⟨tc, tcs, htc⟩ := hmodel revHistory.reverse
    have hstep : agentLoop model dispatch (r + 1) revHistory steps
        = agentLoop model dispatch r
            (((tc :: tcs).map (toolResultMessage dispatch)).reverse
              ++ assistantMessage (model revHistory.reverse) :: revHistory)
            (steps + 1) := by
      rw [agentLoop]
      simp only [htc]
    rw [hstep]
    have h := ih (((tc :: tcs).map (toolResultMessage dispatch)).reverse
      ++ assistantMessage (model revHistory.reverse) :: revHistory) (steps + 1)
    refine ⟨h.1, ?_, h.2.2⟩
    rw [h.2.1]
    omega

/-- C9: an agent bounded by `max_steps = N` whose model response always
requests a tool call terminates after exactly N steps with the
step-limit status and returns the content of the last assistant message
as the partial result — it neither loops indefinitely (the run is a total
function) nor raises. -/
theorem agent_step_limit (max_steps : ℕ)
    (model : List Message → LLMResponse) (dispatch : ToolCall → ToolResult)
    (initial : List Message)
    (hmodel : ∀ h, ∃ tc tcs, (model h).tool_calls = some (tc :: tcs)) :
    (Agent.run max_steps false model dispatch initial).status
        = AgentStatus.stepLimitExceeded
      ∧ (Agent.run max_steps false model dispatch initial).steps = max_steps
      ∧ (Agent.run max_steps false model dispatch initial).finalContent
          = (lastAssistantContent
              (Agent.run max_steps false model dispatch initial).history).getD "" := by
  have h := agentLoop_all_tool_calls model dispatch hmodel max_steps
    initial.reverse 0
  simpa [Agent.run] using h

/-- A concrete model response that always requests one tool call. -/
def demoToolCall : ToolCall :=
  { id := "1", function := { name := "t" } }

/-- A concrete model that always answers with `demoToolCall`. -/
def demoModel : List Message → LLMResponse := fun _ =>
  { content := "partial", tool_calls := some [demoToolCall],
    finish_reason := "tool_calls" }

/-- A concrete dispatcher that always succeeds. -/
def demoDispatch : ToolCall → ToolResult := fun _ =>
  { success := true, content := "ok" }

/-- Witness for C9: with a model that always requests one tool call and a
budget of 2 steps, the run stops at the step limit after exactly 2 steps. -/
theorem agent_step_limit_witness :
    (Agent.run 2 false demoModel demoDispatch []).status
        = AgentStatus.stepLimitExceeded
      ∧ (Agent.run 2 false demoModel demoDispatch []).steps = 2 :=
  have h := agent_step_limit 2 demoModel demoDispatch []
    (fun _ => ⟨demoToolCall, [], rfl⟩)
  ⟨h.1, h.2.1⟩

end MiniAgent

namespace MiniAgent

/-! ## Skill tool (mini_agent/tools/skill_tool.py)

`GetSkillTool.execute` is embedded from its source; the `SkillLoader` it
consults lives in mini_agent/tools/skill_loader.py, which is not among
the available sources, so the loader is modelled from the specification
(skill lookup by name, and the list of discovered skill names). -/

/-- The ASCII apostrophe (U+0027) used in the skill-missing error. -/
def squote : String := String.singleton (Char.ofNat 39)

/-- Modelled from the spec: a discovered skill (name, description and
body, parsed from a SKILL.md). -/
structure Skill where
  name : String
  description : String := ""
  content : String := ""

/-- Modelled from the spec: `Skill.to_prompt` of
mini_agent/tools/skill_loader.py — the complete skill content rendered
for the model (its name, description and body). -/
def Skill.to_prompt (s : Skill) : String :=
  s.name ++ "\n" ++ s.description ++ "\n" ++ s.content

/-- Modelled from the spec: `SkillLoader` of
mini_agent/tools/skill_loader.py — the discovered skills keyed by
name. -/
structure SkillLoader where
  skills : List (String × Skill) := []

/-- Modelled from the spec: `SkillLoader.get_skill` — lookup by name. -/
def SkillLoader.get_skill (l : SkillLoader) (name : String) : Option Skill :=
  l.skills.lookup name

/-- Modelled from the spec: `SkillLoader.list_skills` — the available
skill names. -/
def SkillLoader.list_skills (l : SkillLoader) : List String :=
  l.skills.map Prod.fst

/-- `GetSkillTool` from mini_agent/tools/skill_tool.py, holding its
loader. -/
structure GetSkillTool where
  skill_loader : SkillLoader

/-- `GetSkillTool.name` from mini_agent/tools/skill_tool.py. -/
def GetSkillTool.name (_ : GetSkillTool) : String := "get_skill"

/-- `GetSkillTool.description` from mini_agent/tools/skill_tool.py. -/
def GetSkillTool.description (_ : GetSkillTool) : String :=
  "Get complete content and guidance for a specified skill, used for executing specific types of tasks"

/-- `GetSkillTool.execute` from mini_agent/tools/skill_tool.py: look the
skill up by name; when absent, return a failed `ToolResult` with empty
content and an error naming the missing skill and listing the available
skill names; otherwise return the skill rendered by `to_prompt`.  The
function is total — it never raises. -/
def GetSkillTool.execute (t : GetSkillTool) (skill_name : String) : ToolResult :=
  match t.skill_loader.get_skill skill_name with
  | none =>
    let available := String.intercalate ", " t.skill_loader.list_skills
    { success := false, content := "",
      error := some ("Skill " ++ squote ++ skill_name ++ squote
        ++ " does not exist. Available skills: " ++ available) }
  | some skill => { success := true, content := skill.to_prompt }

end MiniAgent

namespace MiniAgent

/-- C10: for every skill name absent from the loader,
`GetSkillTool.execute` returns a `ToolResult` with `success = False`,
empty content, and an error message naming the missing skill and listing
the available skill names; being a total function it never raises. -/
theorem get_skill_missing (t : GetSkillTool) (skill_name : String)
    (h : t.skill_loader.get_skill skill_name = none) :
    GetSkillTool.execute t skill_name
      = { success := false, content := "",
          error := some ("Skill " ++ squote ++ skill_name ++ squote
            ++ " does not exist. Available skills: "
            ++ String.intercalate ", " t.skill_loader.list_skills) } := by
  unfold GetSkillTool.execute
  rw [h]

/-- A concrete skill tool over two skills, alpha and beta. -/
def demoSkillTool : GetSkillTool :=
  ⟨{ skills := [("alpha", { name := "alpha" }), ("beta", { name := "beta" })] }⟩

/-- Witness for C10: asking a loader holding skills alpha and beta for a
missing skill gamma yields the failed result with the listing error. -/
theorem get_skill_missing_witness :
    GetSkillTool.execute demoSkillTool "gamma"
      = { success := false, content := "",
          error := some ("Skill " ++ squote ++ "gamma" ++ squote
            ++ " does not exist. Available skills: alpha, beta") } := by
  have h := get_skill_missing demoSkillTool "gamma" rfl
  rw [h]
  rfl

end MiniAgent
